import Mathlib

/-!
Verification of the LifeGuard-GenAI risk-assessment core: a shallow embedding
in Lean 4 of the JavaScript classes AdaptiveRiskEngine (adaptiveRiskEngine.js),
RiskStateMachine (riskStateMachine.js), the plain assessRisk function
(bundled with riskStateMachine.js / riskAnalyzer.js), RiskSimulation
(riskSimulation.js) and RiskBreakdownAnalyzer (riskBreakdownAnalyzer.js).

Modelling conventions:
* JavaScript numbers are embedded as exact rationals; Math.round is jsRound,
  Math.max / Math.min are max / min on Rat, Math.abs is abs.
* JavaScript table lookups of the form table[key] with a subsequent
  "|| default" are embedded by lookupOrFalsy, which reproduces the falsy
  quirk faithfully: a stored value of 0 is replaced by the default, exactly
  as in JavaScript where 0 is falsy.
* Math.random and the wall clock (new Date) are modelled as explicit oracle
  parameters threaded through the definitions; timestamps are whole-day
  indices (the engine only uses ages in days for its recency decay).
* Fallible code paths (JavaScript throw caught by a surrounding try/catch
  that returns a failure object) are embedded as explicit failure results.
-/

/-- Math.round: rounds half away from zero upward, i.e. floor(q + 1/2),
which agrees with the JavaScript semantics for every rational. -/
def jsRound (q : ℚ) : ℚ := ⌊q + 1/2⌋

/-- ASCII lower-casing of one character (the condition labels and keywords
of this code base are ASCII). -/
def jsCharToLower (c : Char) : Char :=
  if 65 ≤ c.toNat ∧ c.toNat ≤ 90 then Char.ofNat (c.toNat + 32) else c

/-- String.prototype.toLowerCase, structurally on the character list. -/
def jsToLower (s : String) : String := ⟨s.data.map jsCharToLower⟩

/-- Whether the second list is an initial segment of the first. -/
def leadsWith : List Char → List Char → Bool
  | _, [] => true
  | [], _ :: _ => false
  | c :: cs, d :: ds => c == d && leadsWith cs ds

def jsIncludesChars (hay needle : List Char) : Bool :=
  leadsWith hay needle ||
  match hay with
  | [] => false
  | _ :: cs => jsIncludesChars cs needle

/-- String.prototype.includes: substring test. -/
def jsIncludes (s sub : String) : Bool := jsIncludesChars s.data sub.data

/-- Insert for the stable sort below. -/
def stableInsert (le : α → α → Bool) (a : α) : List α → List α
  | [] => [a]
  | b :: bs => if le a b then a :: b :: bs else b :: stableInsert le a bs

/-- A stable sort (insertion sort): Array.prototype.sort with a comparator
is specified to be stable, and any stable sort realises it. le a b means a
may stay in front of b. -/
def stableSort (le : α → α → Bool) : List α → List α
  | [] => []
  | a :: as => stableInsert le a (stableSort le as)

/-- Array.prototype.slice(-n): the last n elements (the whole list when it is
shorter than n). -/
def jsSliceLast (l : List α) (n : ℕ) : List α := l.drop (l.length - n)

/-- table[key] || default, with the JavaScript falsy quirk: a missing key and
a stored 0 both yield the default. The key is lower-cased first, mirroring
the conditions.field?.toLowerCase() call sites. -/
def lookupOrFalsy (tbl : List (String × ℚ)) (dflt : ℚ) (key : Option String) : ℚ :=
  match key with
  | none => dflt
  | some s =>
    match tbl.lookup (jsToLower s) with
    | none => dflt
    | some v => if v = 0 then dflt else v

/-- The discrete risk levels produced by the adaptive engine. -/
inductive RiskLevel where
  | LOW
  | MEDIUM
  | HIGH
deriving DecidableEq

/-- The five risk factors of the adaptive engine. -/
inductive Factor where
  | weather
  | time
  | crowd
  | location
  | visibility
deriving DecidableEq

/-- A map from the five factors to rationals; used for the weight set, the
base scores and the per-factor weight adjustments. -/
structure FactorVals where
  weather : ℚ
  time : ℚ
  crowd : ℚ
  location : ℚ
  visibility : ℚ
deriving DecidableEq

def FactorVals.get (v : FactorVals) : Factor → ℚ
  | .weather => v.weather
  | .time => v.time
  | .crowd => v.crowd
  | .location => v.location
  | .visibility => v.visibility

/-- Object.values(...).reduce((sum, w) => sum + w, 0) over the five factors. -/
def FactorVals.total (v : FactorVals) : ℚ :=
  v.weather + v.time + v.crowd + v.location + v.visibility

/-- Object.entries(...) in the fixed insertion order of the constructor. -/
def FactorVals.entries (v : FactorVals) : List (Factor × ℚ) :=
  [(.weather, v.weather), (.time, v.time), (.crowd, v.crowd),
   (.location, v.location), (.visibility, v.visibility)]

namespace AdaptiveRiskEngine

/-- Constructor: initial risk factor weights. -/
def initialWeights : FactorVals :=
  { weather := 0.30, time := 0.20, crowd := 0.25, location := 0.15, visibility := 0.10 }

/-- Constructor: learning parameters. -/
def learningRate : ℚ := 0.05

def adaptationThreshold : ℕ := 5

def maxWeightChange : ℚ := 0.1

def confidenceDecay : ℚ := 0.95

/-- The two adaptive risk thresholds. -/
structure Thresholds where
  low_to_medium : ℚ
  medium_to_high : ℚ
deriving DecidableEq

def initialThresholds : Thresholds := { low_to_medium := 2.5, medium_to_high := 4.0 }

/-- conditions.visibility may be a number, a string label, or absent. -/
inductive VisibilityInput where
  | num (v : ℚ)
  | label (s : String)
  | missing
deriving DecidableEq

/-- The conditions object consumed by assessRiskAdaptive. -/
structure Conditions where
  weather : Option String
  time : Option String
  crowd_density : Option String
  location : Option String
  visibility : VisibilityInput
deriving DecidableEq

def weatherScores : List (String × ℚ) :=
  [("clear", 0), ("sunny", 0), ("cloudy", 1), ("overcast", 1.5),
   ("light_rain", 2), ("rainy", 3), ("heavy_rain", 4),
   ("thunderstorm", 5), ("stormy", 5), ("foggy", 3),
   ("snow", 3), ("blizzard", 5), ("tornado", 10), ("hurricane", 10)]

def timeScores : List (String × ℚ) :=
  [("morning", 0), ("afternoon", 0), ("evening", 1),
   ("night", 2), ("late_night", 3), ("dawn", 1)]

def crowdScores : List (String × ℚ) :=
  [("isolated", 2), ("light", 0), ("moderate", 1),
   ("heavy", 2), ("overcrowded", 4), ("dangerous", 5)]

/-- calculateLocationScore: keyword scoring capped at 5; a missing or empty
(falsy) location returns 0. -/
def calculateLocationScore (location : Option String) : ℚ :=
  match location with
  | none => 0
  | some l =>
    if l = "" then 0 else
    let s := jsToLower l
    let score : ℚ :=
      (if jsIncludes s "construction" || jsIncludes s "industrial" then 2 else 0) +
      (if jsIncludes s "remote" || jsIncludes s "isolated" then 1 else 0) +
      (if jsIncludes s "water" || jsIncludes s "beach" then 1 else 0) +
      (if jsIncludes s "mountain" || jsIncludes s "cliff" then 2 else 0) +
      (if jsIncludes s "urban" || jsIncludes s "city" then 0.5 else 0)
    min score 5

def visibilityScores : List (String × ℚ) :=
  [("excellent", 0), ("good", 0), ("fair", 1),
   ("poor", 2), ("very_poor", 3), ("zero", 4)]

/-- calculateVisibilityScore: a numeric visibility is inverted onto a 0..3
scale; otherwise a table lookup with default 1 (with the falsy quirk). -/
def calculateVisibilityScore (v : VisibilityInput) : ℚ :=
  match v with
  | .num x => max 0 ((1 - x) * 3)
  | .label s => lookupOrFalsy visibilityScores 1 (some s)
  | .missing => lookupOrFalsy visibilityScores 1 none

/-- calculateBaseScores: per-factor severity scores. The weather and crowd
tables are read through "|| 1", the time table through "|| 0". -/
def calculateBaseScores (conditions : Conditions) : FactorVals :=
  { weather := lookupOrFalsy weatherScores 1 conditions.weather,
    time := lookupOrFalsy timeScores 0 conditions.time,
    crowd := lookupOrFalsy crowdScores 1 conditions.crowd_density,
    location := calculateLocationScore conditions.location,
    visibility := calculateVisibilityScore conditions.visibility }

/-- applyAdaptiveWeights: weighted sum of the base scores, rounded to one
decimal place. -/
def applyAdaptiveWeights (weights baseScores : FactorVals) : ℚ :=
  let weightedScore :=
    baseScores.weather * weights.weather + baseScores.time * weights.time +
    baseScores.crowd * weights.crowd + baseScores.location * weights.location +
    baseScores.visibility * weights.visibility
  jsRound (weightedScore * 10) / 10

/-- The object returned by determineAdaptiveRiskLevel. -/
structure RiskLevelInfo where
  level : RiskLevel
  color : String
  description : String
deriving DecidableEq

/-- determineAdaptiveRiskLevel: maps a score to a level via the two
adaptive thresholds. -/
def determineAdaptiveRiskLevel (thresholds : Thresholds) (score : ℚ) : RiskLevelInfo :=
  if score ≥ thresholds.medium_to_high then
    { level := .HIGH, color := "#dc2626", description := "High risk conditions detected" }
  else if score ≥ thresholds.low_to_medium then
    { level := .MEDIUM, color := "#d97706", description := "Moderate risk conditions" }
  else
    { level := .LOW, color := "#16a34a", description := "Low risk conditions" }

/-- A stored prediction record (storePrediction). The awaiting_outcome flag
and the ISO timestamp carry no information used by any computation and are
omitted. -/
structure Prediction where
  id : String
  conditions : Conditions
  base_scores : FactorVals
  weights_used : FactorVals
  weighted_score : ℚ
  risk_level : RiskLevel
  thresholds_used : Thresholds
  confidence : ℚ
deriving DecidableEq

/-- The actualOutcome argument of recordOutcome. The actual_risk_level is
typed (validateOutcome rejects anything outside LOW/MEDIUM/HIGH, so the
typed embedding only covers the inputs that pass validation). -/
structure OutcomeInput where
  actual_risk_level : RiskLevel
  incident_occurred : Option Bool
  incident_severity : Option ℚ
  user_feedback : Option String
  environmental_accuracy : Option ℚ
deriving DecidableEq

/-- x || default on a rational: 0 is falsy in JavaScript. -/
def orFalsy (v dflt : ℚ) : ℚ := if v = 0 then dflt else v

/-- The outcome record built inside recordOutcome after defaulting.
timestamp is a whole-day index (new Date().toISOString() at record time). -/
structure OutcomeRecord where
  prediction_id : String
  timestamp : ℕ
  actual_risk_level : RiskLevel
  incident_occurred : Bool
  incident_severity : ℚ
  user_feedback : Option String
  environmental_accuracy : ℚ
deriving DecidableEq

/-- An outcomeHistory entry: the spread of the outcome record together with
the matched prediction and its computed accuracy. -/
structure HistoryEntry extends OutcomeRecord where
  prediction : Prediction
  accuracy : ℚ
deriving DecidableEq

structure PerformanceMetrics where
  totalPredictions : ℕ
  correctPredictions : ℕ
  falsePositives : ℕ
  falseNegatives : ℕ
  accuracy : ℚ
deriving DecidableEq

def initMetrics : PerformanceMetrics :=
  { totalPredictions := 0, correctPredictions := 0, falsePositives := 0,
    falseNegatives := 0, accuracy := 0 }

/-- One entry of adaptationHistory (performAdaptation). The threshold
adjustments are the optional low_to_medium / medium_to_high deltas. -/
structure Adaptation where
  old_weights : FactorVals
  new_weights : FactorVals
  weight_adjustments : FactorVals
  threshold_adjustments : Option ℚ × Option ℚ
  outcomes_analyzed : ℕ
deriving DecidableEq

/-- The full mutable state of an AdaptiveRiskEngine instance. -/
structure EngineState where
  weights : FactorVals
  thresholds : Thresholds
  outcomeHistory : List HistoryEntry
  adaptationHistory : List Adaptation
  performanceMetrics : PerformanceMetrics
  recentPredictions : List Prediction
deriving DecidableEq

def initEngineState : EngineState :=
  { weights := initialWeights, thresholds := initialThresholds,
    outcomeHistory := [], adaptationHistory := [],
    performanceMetrics := initMetrics, recentPredictions := [] }

/-- calculatePredictionConfidence: default 0.7 below three outcomes, else
the mean accuracy of the last ten outcomes plus a data-volume bonus,
clamped into the band from 0.3 to 0.95. -/
def calculatePredictionConfidence (history : List HistoryEntry) : ℚ :=
  if history.length < 3 then 0.7
  else
    let recent := jsSliceLast history 10
    let recentAccuracy := (recent.foldl (fun acc o => acc + o.accuracy) 0) / (recent.length : ℚ)
    let dataVolumeBonus := min 0.2 ((history.length : ℚ) * 0.01)
    min 0.95 (max 0.3 (recentAccuracy + dataVolumeBonus))

/-- The levelMap object of calculatePredictionAccuracy. -/
def levelIndex : RiskLevel → ℚ
  | .LOW => 0
  | .MEDIUM => 1
  | .HIGH => 2

/-- calculatePredictionAccuracy, faithfully including the two JavaScript
falsy defaults: levelMap[level] || 1 (so LOW, whose index is 0, falls back
to 1) and environmental_accuracy || 1.0. Only capped above by Math.min. -/
def calculatePredictionAccuracy (prediction : Prediction) (outcome : OutcomeRecord) : ℚ :=
  let acc1 : ℚ :=
    if prediction.risk_level = outcome.actual_risk_level then 0.6
    else
      let predictedLevel := orFalsy (levelIndex prediction.risk_level) 1
      let actualLevel := orFalsy (levelIndex outcome.actual_risk_level) 1
      let levelDiff := |predictedLevel - actualLevel|
      max 0 (0.6 - levelDiff * 0.3)
  let predictedIncidentRisk : ℚ := if prediction.risk_level = .HIGH then 1 else 0
  let actualIncident : ℚ := if outcome.incident_occurred then 1 else 0
  let acc2 := acc1 + (if predictedIncidentRisk = actualIncident then 0.3 else 0)
  let acc3 := acc2 + orFalsy outcome.environmental_accuracy 1 * 0.1
  min 1 acc3

def updatePerformanceMetrics (m : PerformanceMetrics) (prediction : Prediction)
    (outcome : OutcomeRecord) (accuracy : ℚ) : PerformanceMetrics :=
  let total := m.totalPredictions + 1
  let correct := if accuracy ≥ 0.7 then m.correctPredictions + 1 else m.correctPredictions
  let fp := if prediction.risk_level = .HIGH ∧ ¬ outcome.incident_occurred then
      m.falsePositives + 1 else m.falsePositives
  let fn := if prediction.risk_level ≠ .HIGH ∧ outcome.incident_occurred then
      m.falseNegatives + 1 else m.falseNegatives
  { totalPredictions := total, correctPredictions := correct,
    falsePositives := fp, falseNegatives := fn,
    accuracy := (correct : ℚ) / (total : ℚ) }

/-- shouldTriggerAdaptation: enough outcomes and the history length is an
exact multiple of the adaptation threshold. -/
def shouldTriggerAdaptation (s : EngineState) : Bool :=
  decide (adaptationThreshold ≤ s.outcomeHistory.length) &&
  decide (s.outcomeHistory.length % adaptationThreshold = 0)

/-- Math.pow(confidenceDecay, ageInDays) where the age is now minus the
outcome timestamp, in whole days. -/
def recencyWeight (now timestamp : ℕ) : ℚ := confidenceDecay ^ (now - timestamp)

/-- analyzeFactorPerformance: recency-weighted fraction of outcomes on which
the factor score pointed the right way versus a LOW / not-LOW actual level.
(The factorWeight local of the source is dead code and is omitted.) -/
def analyzeFactorPerformance (factor : Factor) (outcomes : List HistoryEntry) (now : ℕ) : ℚ :=
  let r := outcomes.foldl
    (fun (acc : ℚ × ℚ) (o : HistoryEntry) =>
      let factorScore := o.prediction.base_scores.get factor
      let rw := recencyWeight now o.timestamp
      let correct :=
        if (factorScore ≥ 2 ∧ o.actual_risk_level ≠ .LOW) ∨
           (factorScore < 2 ∧ o.actual_risk_level = .LOW)
        then acc.1 + rw else acc.1
      (correct, acc.2 + rw))
    (0, 0)
  if r.2 > 0 then r.1 / r.2 else 0.5

def calculateWeightAdjustment (performance : ℚ) : ℚ :=
  max (-maxWeightChange) (min maxWeightChange ((performance - 0.7) * learningRate))

/-- The per-factor clamp of applyWeightAdjustments. -/
def clampWeight (w : ℚ) : ℚ := max 0.05 (min 0.5 w)

/-- applyWeightAdjustments: clamp each adjusted weight into the band from
0.05 to 0.5, then divide every weight by the total so they sum to 1. -/
def applyWeightAdjustments (weights adjustments : FactorVals) : FactorVals :=
  let c : FactorVals :=
    { weather := clampWeight (weights.weather + adjustments.weather),
      time := clampWeight (weights.time + adjustments.time),
      crowd := clampWeight (weights.crowd + adjustments.crowd),
      location := clampWeight (weights.location + adjustments.location),
      visibility := clampWeight (weights.visibility + adjustments.visibility) }
  let totalWeight := c.total
  { weather := c.weather / totalWeight, time := c.time / totalWeight,
    crowd := c.crowd / totalWeight, location := c.location / totalWeight,
    visibility := c.visibility / totalWeight }

/-- calculateThresholdAdjustments: (low_to_medium delta, medium_to_high
delta); none stands for a key absent from the adjustments object. -/
def calculateThresholdAdjustments (outcomes : List HistoryEntry) : Option ℚ × Option ℚ :=
  let falsePositives := (outcomes.filter
    (fun o => decide (o.prediction.risk_level = .HIGH ∧ o.actual_risk_level ≠ .HIGH))).length
  let highPredictions := (outcomes.filter
    (fun o => decide (o.prediction.risk_level = .HIGH))).length
  let falsePositiveRate : ℚ :=
    if highPredictions > 0 then (falsePositives : ℚ) / (highPredictions : ℚ) else 0
  if falsePositiveRate > 0.3 then (some 0.1, some 0.2)
  else if falsePositiveRate < 0.1 then (some (-0.05), some (-0.1))
  else (none, none)

def clampThreshold (t : ℚ) : ℚ := max 1 (min 6 t)

def applyThresholdAdjustments (thresholds : Thresholds) (adj : Option ℚ × Option ℚ) : Thresholds :=
  { low_to_medium :=
      match adj.1 with
      | none => thresholds.low_to_medium
      | some a => clampThreshold (thresholds.low_to_medium + a),
    medium_to_high :=
      match adj.2 with
      | none => thresholds.medium_to_high
      | some a => clampThreshold (thresholds.medium_to_high + a) }

/-- performAdaptation. The source line 378 reads
"this.analyzeFactor Performance(factor, recentOutcomes)" with a stray space;
the unambiguous intent (the method defined directly below it) is
analyzeFactorPerformance, which is what is embedded here. -/
def performAdaptation (s : EngineState) (now : ℕ) : EngineState × Adaptation :=
  let recentOutcomes := jsSliceLast s.outcomeHistory (adaptationThreshold * 2)
  let adjustments : FactorVals :=
    { weather := calculateWeightAdjustment (analyzeFactorPerformance .weather recentOutcomes now),
      time := calculateWeightAdjustment (analyzeFactorPerformance .time recentOutcomes now),
      crowd := calculateWeightAdjustment (analyzeFactorPerformance .crowd recentOutcomes now),
      location := calculateWeightAdjustment (analyzeFactorPerformance .location recentOutcomes now),
      visibility := calculateWeightAdjustment (analyzeFactorPerformance .visibility recentOutcomes now) }
  let oldWeights := s.weights
  let newWeights := applyWeightAdjustments s.weights adjustments
  let thresholdAdjustments := calculateThresholdAdjustments recentOutcomes
  let newThresholds := applyThresholdAdjustments s.thresholds thresholdAdjustments
  let adaptation : Adaptation :=
    { old_weights := oldWeights, new_weights := newWeights,
      weight_adjustments := adjustments,
      threshold_adjustments := thresholdAdjustments,
      outcomes_analyzed := recentOutcomes.length }
  ({ s with weights := newWeights, thresholds := newThresholds,
            adaptationHistory := s.adaptationHistory ++ [adaptation] }, adaptation)

def findPrediction (s : EngineState) (predictionId : String) : Option Prediction :=
  s.recentPredictions.find? (fun p => p.id == predictionId)

/-- storePrediction: append, keeping only the last 100 predictions. -/
def storePrediction (s : EngineState) (p : Prediction) : EngineState :=
  let l := s.recentPredictions ++ [p]
  let l := if l.length > 100 then jsSliceLast l 100 else l
  { s with recentPredictions := l }

/-- The object returned by recordOutcome (performance_metrics and the full
adaptation record are read off the returned state). -/
structure RecordResult where
  success : Bool
  error : Option String
  accuracy : ℚ
  adaptation_triggered : Bool
deriving DecidableEq

/-- recordOutcome: look up the prediction (failure result if absent), build
the defaulted outcome record, push it onto the history, update metrics, and
run an adaptation step when shouldTriggerAdaptation fires. -/
def recordOutcome (s : EngineState) (predictionId : String) (inp : OutcomeInput)
    (now : ℕ) : RecordResult × EngineState :=
  match findPrediction s predictionId with
  | none =>
    ({ success := false,
       error := some ("Prediction " ++ predictionId ++ " not found"),
       accuracy := 0, adaptation_triggered := false }, s)
  | some prediction =>
    let outcome : OutcomeRecord :=
      { prediction_id := predictionId, timestamp := now,
        actual_risk_level := inp.actual_risk_level,
        incident_occurred := inp.incident_occurred.getD false,
        incident_severity := inp.incident_severity.getD 0,
        user_feedback :=
          match inp.user_feedback with
          | some f => if f = "" then none else some f
          | none => none,
        environmental_accuracy :=
          match inp.environmental_accuracy with
          | none => 1
          | some v => orFalsy v 1 }
    let accuracy := calculatePredictionAccuracy prediction outcome
    let entry : HistoryEntry :=
      { toOutcomeRecord := outcome, prediction := prediction, accuracy := accuracy }
    let s1 := { s with
      outcomeHistory := s.outcomeHistory ++ [entry],
      performanceMetrics := updatePerformanceMetrics s.performanceMetrics prediction outcome accuracy }
    if shouldTriggerAdaptation s1 then
      ({ success := true, error := none, accuracy := accuracy,
         adaptation_triggered := true }, (performAdaptation s1 now).1)
    else
      ({ success := true, error := none, accuracy := accuracy,
         adaptation_triggered := false }, s1)

/-- getFactorRecommendations (the conditions argument of the source is never
read inside the switch). -/
def getFactorRecommendations (factor : Factor) (score : ℚ) : List String :=
  match factor with
  | .weather =>
    if score ≥ 4 then ["Severe weather - seek immediate shelter"]
    else if score ≥ 2 then ["Monitor weather conditions closely"]
    else []
  | .crowd =>
    if score ≥ 3 then ["Avoid crowded areas or identify exit routes"]
    else if score ≥ 2 then ["Stay aware in crowded conditions"]
    else []
  | .time =>
    if score ≥ 2 then ["Use additional lighting and stay in populated areas"] else []
  | .location =>
    if score ≥ 2 then ["Exercise extra caution in this location type"] else []
  | .visibility =>
    if score ≥ 2 then ["Improve visibility with lights or reflective gear"] else []

/-- generateAdaptiveRecommendations: level-general advice, then the factor
advice of the two highest-scoring factors (stable descending sort, as
Array.prototype.sort is stable) when their score is at least 2, then the
learning-bias note. -/
def generateAdaptiveRecommendations (metrics : PerformanceMetrics)
    (baseScores : FactorVals) (riskLevel : RiskLevelInfo) : List String :=
  let base : List String :=
    if riskLevel.level = .HIGH then ["High risk detected - take immediate precautions"]
    else if riskLevel.level = .MEDIUM then ["Moderate risk - stay alert and prepared"]
    else ["Low risk - maintain basic awareness"]
  let sortedFactors :=
    (stableSort (fun a b => decide (b.2 ≤ a.2)) baseScores.entries).take 2
  let factorRecs := sortedFactors.foldl
    (fun acc fs => if fs.2 ≥ 2 then acc ++ getFactorRecommendations fs.1 fs.2 else acc) []
  let adaptive :=
    if metrics.falsePositives > metrics.falseNegatives then
      ["System tends toward caution - verify conditions independently"]
    else []
  base ++ factorRecs ++ adaptive

/-- The risk_assessment part of the object returned by assessRiskAdaptive. -/
structure RiskAssessmentOut where
  risk_level : RiskLevel
  risk_score : ℚ
  confidence : ℚ
  base_scores : FactorVals
  adaptive_weights : FactorVals
  thresholds : Thresholds
deriving DecidableEq

structure AssessResult where
  success : Bool
  prediction_id : String
  risk_assessment : RiskAssessmentOut
  recommendations : List String
  total_outcomes : ℕ
deriving DecidableEq

/-- assessRiskAdaptive. freshId models the generatePredictionId() call used
when outcomeId is absent or empty (falsy). -/
def assessRiskAdaptive (s : EngineState) (conditions : Conditions)
    (outcomeId : Option String) (freshId : String) : AssessResult × EngineState :=
  let baseScores := calculateBaseScores conditions
  let weightedScore := applyAdaptiveWeights s.weights baseScores
  let riskLevel := determineAdaptiveRiskLevel s.thresholds weightedScore
  let recommendations := generateAdaptiveRecommendations s.performanceMetrics baseScores riskLevel
  let confidence := calculatePredictionConfidence s.outcomeHistory
  let id :=
    match outcomeId with
    | some i => if i = "" then freshId else i
    | none => freshId
  let prediction : Prediction :=
    { id := id, conditions := conditions, base_scores := baseScores,
      weights_used := s.weights, weighted_score := weightedScore,
      risk_level := riskLevel.level, thresholds_used := s.thresholds,
      confidence := confidence }
  let s1 := storePrediction s prediction
  ({ success := true, prediction_id := id,
     risk_assessment :=
       { risk_level := riskLevel.level, risk_score := weightedScore,
         confidence := confidence, base_scores := baseScores,
         adaptive_weights := s.weights, thresholds := s.thresholds },
     recommendations := recommendations,
     total_outcomes := s.outcomeHistory.length }, s1)

end AdaptiveRiskEngine

namespace RiskStateMachine

/-- The ten states of riskStateMachine.js. -/
inductive SMState where
  | INITIALIZING
  | MONITORING
  | LOW_RISK
  | MEDIUM_RISK
  | HIGH_RISK
  | CRITICAL_RISK
  | EMERGENCY_MODE
  | RECOVERY
  | MAINTENANCE
  | ERROR
deriving DecidableEq

def SMState.name : SMState → String
  | .INITIALIZING => "INITIALIZING"
  | .MONITORING => "MONITORING"
  | .LOW_RISK => "LOW_RISK"
  | .MEDIUM_RISK => "MEDIUM_RISK"
  | .HIGH_RISK => "HIGH_RISK"
  | .CRITICAL_RISK => "CRITICAL_RISK"
  | .EMERGENCY_MODE => "EMERGENCY_MODE"
  | .RECOVERY => "RECOVERY"
  | .MAINTENANCE => "MAINTENANCE"
  | .ERROR => "ERROR"

/-- this.states[name]: resolve a state name, none for an unknown name. -/
def stateOfName (name : String) : Option SMState :=
  if name = "INITIALIZING" then some .INITIALIZING
  else if name = "MONITORING" then some .MONITORING
  else if name = "LOW_RISK" then some .LOW_RISK
  else if name = "MEDIUM_RISK" then some .MEDIUM_RISK
  else if name = "HIGH_RISK" then some .HIGH_RISK
  else if name = "CRITICAL_RISK" then some .CRITICAL_RISK
  else if name = "EMERGENCY_MODE" then some .EMERGENCY_MODE
  else if name = "RECOVERY" then some .RECOVERY
  else if name = "MAINTENANCE" then some .MAINTENANCE
  else if name = "ERROR" then some .ERROR
  else none

/-- The static allowedTransitions table (state names, as in the source). -/
def allowedTransitions : SMState → List String
  | .INITIALIZING => ["MONITORING", "ERROR"]
  | .MONITORING =>
      ["LOW_RISK", "MEDIUM_RISK", "HIGH_RISK", "CRITICAL_RISK", "ERROR", "MAINTENANCE"]
  | .LOW_RISK => ["MONITORING", "MEDIUM_RISK", "HIGH_RISK", "CRITICAL_RISK", "ERROR"]
  | .MEDIUM_RISK => ["LOW_RISK", "MONITORING", "HIGH_RISK", "CRITICAL_RISK", "ERROR"]
  | .HIGH_RISK => ["MEDIUM_RISK", "CRITICAL_RISK", "EMERGENCY_MODE", "ERROR"]
  | .CRITICAL_RISK => ["EMERGENCY_MODE", "HIGH_RISK", "ERROR"]
  | .EMERGENCY_MODE => ["CRITICAL_RISK", "HIGH_RISK", "RECOVERY", "ERROR"]
  | .RECOVERY => ["MONITORING", "LOW_RISK", "MEDIUM_RISK", "HIGH_RISK", "ERROR"]
  | .MAINTENANCE => ["MONITORING", "ERROR"]
  | .ERROR => ["INITIALIZING", "MONITORING", "MAINTENANCE"]

/-- The per-state behavior profile (ui_mode, monitoring_frequency in ms,
alert_level); the remaining profile fields are static data applied through
external handler side effects and are not needed by the claims. -/
structure Behaviors where
  ui_mode : String
  monitoring_frequency : ℕ
  alert_level : String
deriving DecidableEq

def behaviors : SMState → Behaviors
  | .INITIALIZING => { ui_mode := "loading", monitoring_frequency := 0, alert_level := "none" }
  | .MONITORING => { ui_mode := "normal", monitoring_frequency := 30000, alert_level := "info" }
  | .LOW_RISK => { ui_mode := "normal", monitoring_frequency := 60000, alert_level := "success" }
  | .MEDIUM_RISK => { ui_mode := "caution", monitoring_frequency := 15000, alert_level := "warning" }
  | .HIGH_RISK => { ui_mode := "alert", monitoring_frequency := 5000, alert_level := "danger" }
  | .CRITICAL_RISK => { ui_mode := "emergency", monitoring_frequency := 2000, alert_level := "critical" }
  | .EMERGENCY_MODE => { ui_mode := "emergency_full", monitoring_frequency := 1000, alert_level := "emergency" }
  | .RECOVERY => { ui_mode := "recovery", monitoring_frequency := 10000, alert_level := "info" }
  | .MAINTENANCE => { ui_mode := "maintenance", monitoring_frequency := 0, alert_level := "info" }
  | .ERROR => { ui_mode := "error", monitoring_frequency := 0, alert_level := "error" }

/-- One stateHistory record (recordTransition). -/
structure TransitionRecord where
  src : String
  dst : String
  timestamp : ℕ
deriving DecidableEq

/-- The mutable part of a RiskStateMachine instance touched by transition:
current / previous state, history, transition count, entry time and the
applied monitoring frequency. Timers, listeners and logging are external
side effects with no bearing on the state. -/
structure Machine where
  currentState : SMState
  previousState : Option SMState
  stateHistory : List TransitionRecord
  transitionCount : ℕ
  entryTime : ℕ
  monitoringFrequency : ℕ
  maxStateHistory : ℕ
deriving DecidableEq

/-- isTransitionAllowed: membership of the target name in the current
state's allowed-transitions list. -/
def isTransitionAllowed (m : Machine) (targetStateName : String) : Bool :=
  (allowedTransitions m.currentState).contains targetStateName

/-- recordTransition: push a record and trim to maxStateHistory. -/
def recordTransition (m : Machine) (newState : SMState) (now : ℕ) : Machine :=
  let h := m.stateHistory ++
    [{ src := m.currentState.name, dst := newState.name, timestamp := now }]
  let h := if h.length > m.maxStateHistory then jsSliceLast h m.maxStateHistory else h
  { m with stateHistory := h }

/-- enterState: shift current to previous, bump the transition counter, and
apply the state behaviors (setMonitoringFrequency). -/
def enterState (m : Machine) (state : SMState) (now : ℕ) : Machine :=
  { m with previousState := some m.currentState, currentState := state,
           entryTime := now, transitionCount := m.transitionCount + 1,
           monitoringFrequency := (behaviors state).monitoring_frequency }

/-- executeTransition: exitState (timer cleanup only), recordTransition,
enterState, notify listeners (external). Always succeeds in the pure model
because every step is total. -/
def executeTransition (m : Machine) (newState : SMState) (now : ℕ) : Machine :=
  enterState (recordTransition m newState now) newState now

/-- transition: resolve the target name; an unknown name throws, which the
catch handler turns into a handleError call that itself transitions to
ERROR; a known but disallowed target logs and returns false with no state
change; otherwise the transition is executed. -/
def transition (m : Machine) (newStateName : String) (now : ℕ) : Bool × Machine :=
  match stateOfName newStateName with
  | none =>
    -- handleError: transition to ERROR unless already there
    if m.currentState.name = "ERROR" then (false, m)
    else if isTransitionAllowed m "ERROR" then (false, executeTransition m .ERROR now)
    else (false, m)
  | some newState =>
    if isTransitionAllowed m newStateName then (true, executeTransition m newState now)
    else (false, m)

/-- The machine as the constructor leaves it: initialize() enters
INITIALIZING (so previousState is INITIALIZING and the counter is 1); the
auto-transition to MONITORING is a deferred setTimeout, outside this
synchronous state. -/
def initMachine : Machine :=
  enterState
    { currentState := .INITIALIZING, previousState := none, stateHistory := [],
      transitionCount := 0, entryTime := 0, monitoringFrequency := 0,
      maxStateHistory := 50 }
    .INITIALIZING 0

end RiskStateMachine

namespace RiskAnalyzer

/-- generatePreventiveSteps: base steps, level-specific steps, then
factor-specific steps; duplicates removed keeping first occurrences
(the Set constructor preserves insertion order). -/
def generatePreventiveSteps (riskLevel : RiskLevel) (riskFactors : List String) : List String :=
  let steps := ["Stay aware of your surroundings", "Keep emergency contacts accessible"]
  let steps := steps ++
    (match riskLevel with
     | .HIGH =>
       ["Consider immediate relocation to safer area",
        "Contact emergency services if in immediate danger",
        "Stay in constant communication with others",
        "Have evacuation plan ready",
        "Avoid unnecessary movement or activities"]
     | .MEDIUM =>
       ["Exercise increased caution",
        "Stay in groups when possible",
        "Monitor conditions closely for changes",
        "Keep communication devices charged",
        "Identify nearest safe locations"]
     | .LOW =>
       ["Continue normal activities with basic precautions",
        "Stay informed of changing conditions"])
  let steps := steps ++
    (if riskFactors.contains "severe weather" || riskFactors.contains "adverse weather" then
      ["Seek shelter from weather conditions",
       "Avoid outdoor activities if possible",
       "Monitor weather alerts and updates"] else [])
  let steps := steps ++
    (if riskFactors.contains "nighttime conditions" || riskFactors.contains "low light conditions" then
      ["Use adequate lighting and visibility aids",
       "Stay in well-lit areas",
       "Travel with others when possible"] else [])
  let steps := steps ++
    (if riskFactors.contains "overcrowding hazard" || riskFactors.contains "high crowd density" then
      ["Identify multiple exit routes",
       "Avoid pushing through dense crowds",
       "Stay calm and move slowly",
       "Keep personal belongings secure"] else [])
  let steps := steps ++
    (if riskFactors.contains "isolation risk" || riskFactors.contains "remote location" then
      ["Inform others of your location and plans",
       "Carry extra supplies and communication devices",
       "Consider traveling with companions"] else [])
  let steps := steps ++
    (if riskFactors.contains "water proximity" then
      ["Maintain safe distance from water edges",
       "Be aware of water conditions and currents",
       "Ensure proper safety equipment if near water"] else [])
  let steps := steps ++
    (if riskFactors.contains "hazardous area" then
      ["Follow all posted safety signs and barriers",
       "Use appropriate protective equipment",
       "Minimize time spent in hazardous areas"] else [])
  steps.eraseDups

/-- The JSON object built by assessRisk (the echoed assessment input and the
ISO timestamp are omitted: they are copies of the arguments and of the
clock). -/
structure AnalyzerOut where
  risk_level : RiskLevel
  risk_score : ℚ
  factors : List String
  preventive_steps : List String
deriving DecidableEq

/-- The plain assessRisk function: keyword scoring of the four string
inputs, summed, then fixed cutoffs 5 and 3. -/
def assessRisk (location time weather crowdDensity : String) : AnalyzerOut :=
  let weatherLower := jsToLower weather
  let w : ℚ × List String :=
    if jsIncludes weatherLower "storm" || jsIncludes weatherLower "tornado" ||
       jsIncludes weatherLower "hurricane" then (3, ["severe weather"])
    else if jsIncludes weatherLower "rain" || jsIncludes weatherLower "snow" ||
       jsIncludes weatherLower "fog" then (2, ["adverse weather"])
    else if jsIncludes weatherLower "cloudy" || jsIncludes weatherLower "overcast" then
      (1, ["reduced visibility"])
    else (0, [])
  let timeLower := jsToLower time
  let t : ℚ × List String :=
    if jsIncludes timeLower "night" || jsIncludes timeLower "midnight" ||
       jsIncludes timeLower "late" then (2, ["nighttime conditions"])
    else if jsIncludes timeLower "evening" || jsIncludes timeLower "dawn" ||
       jsIncludes timeLower "dusk" then (1, ["low light conditions"])
    else (0, [])
  let crowdLower := jsToLower crowdDensity
  let c : ℚ × List String :=
    if jsIncludes crowdLower "overcrowded" || jsIncludes crowdLower "packed" ||
       jsIncludes crowdLower "dangerous" then (3, ["overcrowding hazard"])
    else if jsIncludes crowdLower "heavy" || jsIncludes crowdLower "dense" then
      (2, ["high crowd density"])
    else if jsIncludes crowdLower "isolated" || jsIncludes crowdLower "alone" ||
       jsIncludes crowdLower "remote" then (1, ["isolation risk"])
    else (0, [])
  let locationLower := jsToLower location
  let l : ℚ × List String :=
    if jsIncludes locationLower "construction" || jsIncludes locationLower "industrial" ||
       jsIncludes locationLower "hazardous" then (2, ["hazardous area"])
    else if jsIncludes locationLower "remote" || jsIncludes locationLower "wilderness" ||
       jsIncludes locationLower "isolated" then (1, ["remote location"])
    else if jsIncludes locationLower "water" || jsIncludes locationLower "beach" ||
       jsIncludes locationLower "river" then (1, ["water proximity"])
    else (0, [])
  let riskScore := w.1 + t.1 + c.1 + l.1
  let riskFactors := w.2 ++ t.2 ++ c.2 ++ l.2
  let riskLevel : RiskLevel :=
    if riskScore ≥ 5 then .HIGH else if riskScore ≥ 3 then .MEDIUM else .LOW
  { risk_level := riskLevel, risk_score := riskScore, factors := riskFactors,
    preventive_steps := generatePreventiveSteps riskLevel riskFactors }

end RiskAnalyzer

namespace RiskSimulation

/-- The ambient environment of a simulateRiskProgression call: the stream of
Math.random() draws (one per loop iteration, consumed by
simulateWeatherChange), the wall-clock start time in minutes after local
midnight, a model of Math.sin((hour - 6) * PI / 12) indexed by the hour (an
irrational function; only carried into the unread temperature_factor
field), whether the global assessRisk function is loaded, and the ISO
timestamp string used in result objects. -/
structure SimEnv where
  rand : ℕ → ℚ
  startMinutes : ℕ
  sinOfHour : ℕ → ℚ
  globalAssess : Bool
  nowISO : String

/-- The initial-conditions object. The simulation requires weather and
crowd_density to be strings (it calls toLowerCase on both); time and
visibility are recomputed at every step. -/
structure SimConditions where
  weather : String
  crowd_density : String
  location : Option String
deriving DecidableEq

structure WeatherTrend where
  direction : String
  rate : ℚ
  volatility : ℚ
deriving DecidableEq

structure CrowdTrend where
  direction : String
  peak_times : List ℕ
  base_growth_rate : ℚ
deriving DecidableEq

structure VisibilityTrend where
  weather_dependent : Bool
  time_dependent : Bool
  base_visibility : ℚ
deriving DecidableEq

structure TemperatureTrend where
  direction : String
  daily_variation : ℚ
  rate : ℚ
deriving DecidableEq

/-- The merged trends object. The JavaScript merge of caller trends over the
defaults is object spread; callers of this embedding pass the merged
value (generateDefaultTrends when the argument is omitted). -/
structure SimTrends where
  weather_trend : WeatherTrend
  crowd_trend : CrowdTrend
  visibility_trend : VisibilityTrend
  temperature_trend : TemperatureTrend
deriving DecidableEq

def generateDefaultTrends (_initialConditions : SimConditions) : SimTrends :=
  { weather_trend := { direction := "stable", rate := 0.1, volatility := 0.2 },
    crowd_trend := { direction := "cyclical", peak_times := [9, 13, 18], base_growth_rate := 0.05 },
    visibility_trend := { weather_dependent := true, time_dependent := true, base_visibility := 0.8 },
    temperature_trend := { direction := "stable", daily_variation := 10, rate := 0.5 } }

/-- list.indexOf(x) || dflt: indexOf yields -1 (truthy) on a miss, so the
default only replaces a hit at position 0. -/
def jsIndexOr (l : List String) (x : String) (dflt : ℤ) : ℤ :=
  match l.findIdx? (fun a => a == x) with
  | none => -1
  | some i => if i = 0 then dflt else (i : ℤ)

/-- list[i] in JavaScript: undefined outside the bounds. -/
def listGetInt (l : List String) (i : ℤ) : Option String :=
  if h : 0 ≤ i ∧ i.toNat < l.length then some (l.get ⟨i.toNat, h.2⟩) else none

def weatherStates : List String := ["clear", "cloudy", "rainy", "stormy", "foggy"]

/-- simulateWeatherChange: discrete walk over the ordered weather list. The
deteriorating and improving branches clamp on one side only, so the result
can be undefined (an out-of-range index). -/
def simulateWeatherChange (env : SimEnv) (i : ℕ) (initialWeather : String)
    (weatherTrend : WeatherTrend) (hoursElapsed : ℚ) : Option String :=
  let currentIndex := jsIndexOr weatherStates (jsToLower initialWeather) 0
  let changeRate := weatherTrend.rate * hoursElapsed
  let randomFactor := (env.rand i - 0.5) * weatherTrend.volatility
  let newIndex : ℤ :=
    if weatherTrend.direction = "deteriorating" then
      min 4 (currentIndex + ⌊changeRate + randomFactor⌋)
    else if weatherTrend.direction = "improving" then
      max 0 (currentIndex - ⌊changeRate + randomFactor⌋)
    else
      max 0 (min 4 (currentIndex + ⌊randomFactor * 2⌋))
  listGetInt weatherStates newIndex

def crowdLevels : List String := ["isolated", "light", "moderate", "heavy", "overcrowded"]

/-- simulateCrowdChange: cyclical peak-hour model or monotone drift, with a
two-sided clamp on the rounded index. -/
def simulateCrowdChange (initialCrowd : String) (crowdTrend : CrowdTrend)
    (currentHour : ℕ) (hoursElapsed : ℚ) : Option String :=
  let currentIndex := jsIndexOr crowdLevels (jsToLower initialCrowd) 1
  let modifier : ℚ :=
    if crowdTrend.direction = "cyclical" then
      let nearPeak := crowdTrend.peak_times.any
        (fun p => decide (|(currentHour : ℤ) - (p : ℤ)| ≤ 1))
      if nearPeak then 1 else -0.5
    else if crowdTrend.direction = "increasing" then
      crowdTrend.base_growth_rate * hoursElapsed
    else if crowdTrend.direction = "decreasing" then
      -(crowdTrend.base_growth_rate * hoursElapsed)
    else 0
  let newIndex := max 0 (min 4 (⌊(currentIndex : ℚ) + modifier + 1/2⌋))
  listGetInt crowdLevels newIndex

def getTimeContext (hour : ℕ) : String :=
  if 5 ≤ hour ∧ hour < 8 then "dawn"
  else if 8 ≤ hour ∧ hour < 12 then "morning"
  else if 12 ≤ hour ∧ hour < 17 then "afternoon"
  else if 17 ≤ hour ∧ hour < 20 then "evening"
  else if 20 ≤ hour ∧ hour < 24 then "night"
  else "late_night"

def weatherImpact : List (String × ℚ) :=
  [("clear", 1.0), ("cloudy", 0.8), ("rainy", 0.5), ("stormy", 0.3), ("foggy", 0.2)]

/-- this.timeFactors[timeContext]?.visibility_factor || 0.8 (every stored
factor is nonzero, so the falsy default only fires on a miss). -/
def timeVisibilityFactor (timeContext : String) : ℚ :=
  if timeContext = "dawn" then 0.6
  else if timeContext = "morning" then 1.0
  else if timeContext = "afternoon" then 1.0
  else if timeContext = "evening" then 0.8
  else if timeContext = "night" then 0.4
  else if timeContext = "late_night" then 0.3
  else 0.8

def calculateVisibility (weather : Option String) (timeContext : String)
    (vt : VisibilityTrend) : ℚ :=
  let wi : ℚ :=
    match weather with
    | none => 0.8
    | some w =>
      match weatherImpact.lookup w with
      | none => 0.8
      | some v => v
  let visibility := vt.base_visibility * wi
  let visibility :=
    if vt.time_dependent then visibility * timeVisibilityFactor timeContext else visibility
  max 0.1 (min 1.0 visibility)

def simulateTemperatureChange (env : SimEnv) (tempTrend : TemperatureTrend)
    (currentHour : ℕ) (hoursElapsed : ℚ) : ℚ :=
  let dailyCycle := env.sinOfHour currentHour
  let baseTemp := 20 + dailyCycle * tempTrend.daily_variation / 2
  let trendAdjustment : ℚ :=
    if tempTrend.direction = "increasing" then tempTrend.rate * hoursElapsed
    else if tempTrend.direction = "decreasing" then -(tempTrend.rate * hoursElapsed)
    else 0
  baseTemp + trendAdjustment

/-- The evolved conditions at one simulation step. -/
structure EvolvedConditions where
  weather : Option String
  crowd_density : Option String
  time : String
  visibility : ℚ
  temperature_factor : ℚ
  location : Option String
deriving DecidableEq

/-- Date.getHours() of the start time shifted by a minute offset. -/
def hourAt (env : SimEnv) (offsetMinutes : ℚ) : ℕ :=
  ((((env.startMinutes : ℤ) + ⌊offsetMinutes⌋) % 1440) / 60).toNat

def calculateConditionsAtTime (env : SimEnv) (i : ℕ) (initial : SimConditions)
    (trends : SimTrends) (hoursElapsed : ℚ) (currentHour : ℕ) : EvolvedConditions :=
  let weather := simulateWeatherChange env i initial.weather trends.weather_trend hoursElapsed
  let crowd := simulateCrowdChange initial.crowd_density trends.crowd_trend currentHour hoursElapsed
  let time := getTimeContext currentHour
  let visibility := calculateVisibility weather time trends.visibility_trend
  let temp := simulateTemperatureChange env trends.temperature_trend currentHour hoursElapsed
  { weather := weather, crowd_density := crowd, time := time,
    visibility := visibility, temperature_factor := temp, location := initial.location }

/-- The risk fields the simulation reads off an assessment; the remaining
payload produced by the global assessRisk (factors, preventive steps) is
carried along unread. -/
structure RiskOut where
  risk_level : RiskLevel
  risk_score : ℚ
deriving DecidableEq

def simpleWeatherScores : List (String × ℚ) :=
  [("clear", 0), ("cloudy", 1), ("rainy", 2), ("stormy", 3), ("foggy", 2)]

def simpleCrowdScores : List (String × ℚ) :=
  [("isolated", 1), ("light", 0), ("moderate", 1), ("heavy", 2), ("overcrowded", 3)]

def simpleTimeScores : List (String × ℚ) :=
  [("dawn", 1), ("morning", 0), ("afternoon", 0), ("evening", 1), ("night", 2), ("late_night", 3)]

/-- table[key] || 0 with a possibly undefined key (here every default is 0,
so the falsy quirk is invisible). -/
def lookupOr0 (tbl : List (String × ℚ)) (key : Option String) : ℚ :=
  match key with
  | none => 0
  | some s =>
    match tbl.lookup s with
    | none => 0
    | some v => v

def simpleRiskAssessment (conditions : EvolvedConditions) : RiskOut :=
  let score := lookupOr0 simpleWeatherScores conditions.weather
    + lookupOr0 simpleCrowdScores conditions.crowd_density
    + lookupOr0 simpleTimeScores (some conditions.time)
  let level : RiskLevel := if score ≥ 5 then .HIGH else if score ≥ 3 then .MEDIUM else .LOW
  { risk_level := level, risk_score := score }

/-- assessRiskAtTime: delegate to the global assessRisk when it is loaded
(which throws a TypeError when the evolved weather or crowd density is
undefined), else to the fallback simpleRiskAssessment. -/
def assessRiskAtTime (env : SimEnv) (conditions : EvolvedConditions) : Except String RiskOut :=
  if env.globalAssess then
    match conditions.weather, conditions.crowd_density with
    | some w, some c =>
      let r := RiskAnalyzer.assessRisk (conditions.location.getD "unknown location")
        conditions.time w c
      .ok { risk_level := r.risk_level, risk_score := r.risk_score }
    | _, _ => .error "Cannot read properties of undefined"
  else
    .ok (simpleRiskAssessment conditions)

def calculateConfidence (hoursElapsed : ℚ) : ℚ :=
  max 0.3 (0.95 - 0.05 * hoursElapsed)

/-- validateSimulationInputs: the error message of the first failing check
(the conditions argument is an object by typing). -/
def validateSimulationInputs (hoursAhead intervalMinutes : ℚ) : Option String :=
  if hoursAhead ≤ 0 ∨ hoursAhead > 48 then
    some "Hours ahead must be between 1 and 48"
  else if intervalMinutes ≤ 0 ∨ intervalMinutes > 240 then
    some "Interval minutes must be between 1 and 240"
  else none

/-- One prediction point (the ISO time string is a display copy of the
start time plus the offset and is omitted). -/
structure SimPrediction where
  hours_from_start : ℚ
  conditions : EvolvedConditions
  risk_assessment : RiskOut
  confidence : ℚ
deriving DecidableEq

/-- The success payload. trend_analysis and the recommendations derived
from it are not modelled (they involve Math.sqrt and locale time
formatting and are read by no claim); their keys still appear in
resultKeys below. -/
structure SimOk where
  start_time : String
  hours_ahead : ℚ
  interval_minutes : ℚ
  total_predictions : ℕ
  initial_conditions : SimConditions
  trends_used : SimTrends
  predictions : List SimPrediction
deriving DecidableEq

/-- The value returned by simulateRiskProgression: the success object, or
the catch-block failure object. -/
inductive SimResult where
  | ok (payload : SimOk)
  | err (error : String) (timestamp : String)

/-- The top-level keys of the two result object literals in the source. -/
def resultKeys : SimResult → List String
  | .ok _ =>
    ["success", "simulation_parameters", "initial_conditions", "trends_used",
     "predictions", "trend_analysis", "recommendations"]
  | .err _ _ => ["success", "error", "timestamp"]

def SimResult.success : SimResult → Bool
  | .ok _ => true
  | .err _ _ => false

/-- The body of one loop iteration, propagating a thrown TypeError. -/
def simulationStep (env : SimEnv) (initial : SimConditions) (trends : SimTrends)
    (intervalMinutes : ℚ) (i : ℕ) : Except String SimPrediction :=
  let timeElapsed := (i : ℚ) * intervalMinutes / 60
  let currentHour := hourAt env ((i : ℚ) * intervalMinutes)
  let conditions := calculateConditionsAtTime env i initial trends timeElapsed currentHour
  match assessRiskAtTime env conditions with
  | .error e => .error e
  | .ok ra =>
    .ok { hours_from_start := timeElapsed, conditions := conditions,
          risk_assessment := ra, confidence := calculateConfidence timeElapsed }

/-- simulateRiskProgression: validate, then run ceil(hoursAhead*60 /
intervalMinutes) + 1 steps; any exception becomes the failure object. -/
def simulateRiskProgression (env : SimEnv) (initialConditions : SimConditions)
    (trends : SimTrends) (hoursAhead intervalMinutes : ℚ) : SimResult :=
  match validateSimulationInputs hoursAhead intervalMinutes with
  | some e => .err e env.nowISO
  | none =>
    let intervals : ℕ := (⌈hoursAhead * 60 / intervalMinutes⌉).toNat
    match (List.range (intervals + 1)).mapM
        (simulationStep env initialConditions trends intervalMinutes) with
    | .error e => .err e env.nowISO
    | .ok predictions =>
      .ok { start_time := env.nowISO, hours_ahead := hoursAhead,
            interval_minutes := intervalMinutes,
            total_predictions := predictions.length,
            initial_conditions := initialConditions, trends_used := trends,
            predictions := predictions }

end RiskSimulation

namespace RiskBreakdownAnalyzer

/-- The ambient environment of one analyzeRiskBreakdown call: the stream of
Math.random() draws, numbered 0 to 9 in the order the placeholder helpers
run inside calculateFactorScores (weather stability, forecast trend,
seasonal appropriateness, crowd behavior, crowd flow, crowd demographics,
location accessibility, infrastructure, historical incidents, visibility
obstacles), and the wall-clock fields read through new Date(). -/
structure BEnv where
  rand : ℕ → ℚ
  hour : ℕ
  day : ℕ
  month : ℕ

/-- The conditions object consumed by the analyzer. -/
structure BConditions where
  weather : Option String
  time : Option String
  crowd_density : Option String
  location : Option String
  visibility : AdaptiveRiskEngine.VisibilityInput
deriving DecidableEq

/-- The defaultWeights literal of the constructor (textually the same
table as the adaptive engine's initial weights). -/
def defaultWeights : FactorVals :=
  { weather := 0.30, time := 0.20, crowd := 0.25, location := 0.15, visibility := 0.10 }

/-- getWeatherIntensity: the same intensity literal as the adaptive
engine's weather table, read through "|| 1". -/
def getWeatherIntensity (weather : Option String) : ℚ :=
  lookupOrFalsy AdaptiveRiskEngine.weatherScores 1 weather

def getWeatherStability (env : BEnv) : ℚ := env.rand 0 * 2 + 1

def getForecastTrend (env : BEnv) : ℚ := env.rand 1 * 2 + 1

def getSeasonalAppropriateness (env : BEnv) : ℚ := env.rand 2 * 2 + 1

/-- getHourOfDayRisk reads the wall clock, ignoring the passed time. -/
def getHourOfDayRisk (env : BEnv) : ℚ :=
  if env.hour ≥ 22 ∨ env.hour ≤ 5 then 3
  else if env.hour ≥ 18 ∨ env.hour ≤ 7 then 2
  else 1

def getDayOfWeekRisk (env : BEnv) : ℚ :=
  if env.day = 0 ∨ env.day = 6 then 1.5 else 1

def getSeasonalRisk (env : BEnv) : ℚ :=
  if env.month ≥ 11 ∨ env.month ≤ 2 then 2 else 1

def getDurationRisk : ℚ := 1

def densityMap : List (String × ℚ) :=
  [("isolated", 0), ("light", 1), ("moderate", 2),
   ("heavy", 3), ("overcrowded", 4), ("dangerous", 5)]

/-- getCrowdDensity: densityMap lookup through "|| 2" (isolated, stored as
0, falls back to 2). -/
def getCrowdDensity (crowd : Option String) : ℚ := lookupOrFalsy densityMap 2 crowd

def getCrowdBehavior (env : BEnv) : ℚ := env.rand 3 * 3 + 1

def getCrowdFlowPattern (env : BEnv) : ℚ := env.rand 4 * 2 + 1

def getCrowdDemographics (env : BEnv) : ℚ := env.rand 5 * 2 + 1

def getLocationInherentRisk (location : Option String) : ℚ :=
  match location with
  | none => 1
  | some l =>
    if l = "" then 1 else
    let s := jsToLower l
    let risk : ℚ := 1 +
      (if jsIncludes s "construction" then 2 else 0) +
      (if jsIncludes s "water" then 1 else 0) +
      (if jsIncludes s "mountain" then 1.5 else 0) +
      (if jsIncludes s "industrial" then 2 else 0)
    min risk 5

def getLocationAccessibility (env : BEnv) : ℚ := env.rand 6 * 2 + 1

def getInfrastructureQuality (env : BEnv) : ℚ := env.rand 7 * 2 + 1

def getHistoricalIncidentRisk (env : BEnv) : ℚ := env.rand 8 * 2 + 1

def visibilityMap : List (String × ℚ) :=
  [("excellent", 0), ("good", 1), ("fair", 2),
   ("poor", 3), ("very_poor", 4), ("zero", 5)]

/-- getCurrentVisibilityConditions: a numeric visibility is inverted onto a
0..4 scale (with no lower clamp), otherwise a "|| 2" table lookup. -/
def getCurrentVisibilityConditions (v : AdaptiveRiskEngine.VisibilityInput) : ℚ :=
  match v with
  | .num x => (1 - x) * 4
  | .label s => lookupOrFalsy visibilityMap 2 (some s)
  | .missing => lookupOrFalsy visibilityMap 2 none

def getLightingConditions (env : BEnv) : ℚ :=
  if env.hour ≥ 20 ∨ env.hour ≤ 6 then 3
  else if env.hour ≥ 18 ∨ env.hour ≤ 8 then 2
  else 1

def getVisibilityObstacles (env : BEnv) : ℚ := env.rand 9 * 2 + 1

/-- calculateFactorScores: the total_score of each of the five factor
records. The per-factor sub_scores and confidence fields of the source
records feed only analyzeSubFactors / calculateConfidenceMetrics, which
are outside the percentage-breakdown path modelled here. -/
def calculateFactorScores (env : BEnv) (c : BConditions) : FactorVals :=
  { weather :=
      getWeatherIntensity c.weather * 0.4 + getWeatherStability env * 0.3 +
      getForecastTrend env * 0.2 + getSeasonalAppropriateness env * 0.1,
    time :=
      getHourOfDayRisk env * 0.5 + getDayOfWeekRisk env * 0.2 +
      getSeasonalRisk env * 0.2 + getDurationRisk * 0.1,
    crowd :=
      getCrowdDensity c.crowd_density * 0.4 + getCrowdBehavior env * 0.3 +
      getCrowdFlowPattern env * 0.2 + getCrowdDemographics env * 0.1,
    location :=
      getLocationInherentRisk c.location * 0.4 + getLocationAccessibility env * 0.2 +
      getInfrastructureQuality env * 0.2 + getHistoricalIncidentRisk env * 0.2,
    visibility :=
      getCurrentVisibilityConditions c.visibility * 0.5 + getLightingConditions env * 0.3 +
      getVisibilityObstacles env * 0.2 }

structure Contribution where
  raw_score : ℚ
  weight : ℚ
  weighted_score : ℚ
deriving DecidableEq

structure ContribMap where
  weather : Contribution
  time : Contribution
  crowd : Contribution
  location : Contribution
  visibility : Contribution
deriving DecidableEq

/-- calculateWeightedContributions over Object.entries(weights) in
constructor order. -/
def calculateWeightedContributions (factorScores weights : FactorVals) : ContribMap :=
  let mk := fun (f : Factor) =>
    { raw_score := factorScores.get f, weight := weights.get f,
      weighted_score := factorScores.get f * weights.get f : Contribution }
  { weather := mk .weather, time := mk .time, crowd := mk .crowd,
    location := mk .location, visibility := mk .visibility }

def ContribMap.totalWeightedScore (c : ContribMap) : ℚ :=
  c.weather.weighted_score + c.time.weighted_score + c.crowd.weighted_score +
  c.location.weighted_score + c.visibility.weighted_score

def classifyImpactLevel (percentage : ℚ) : String :=
  if percentage ≥ 40 then "CRITICAL"
  else if percentage ≥ 25 then "HIGH"
  else if percentage ≥ 15 then "MEDIUM"
  else if percentage ≥ 5 then "LOW"
  else "MINIMAL"

structure PBEntry where
  percentage : ℚ
  raw_score : ℚ
  weighted_score : ℚ
  weight : ℚ
  impact_level : String
  rank : ℕ
deriving DecidableEq

structure PercentageBreakdown where
  weather : PBEntry
  time : PBEntry
  crowd : PBEntry
  location : PBEntry
  visibility : PBEntry
deriving DecidableEq

def PercentageBreakdown.get (p : PercentageBreakdown) : Factor → PBEntry
  | .weather => p.weather
  | .time => p.time
  | .crowd => p.crowd
  | .location => p.location
  | .visibility => p.visibility

/-- calculatePercentageBreakdown: percentage share of each factor (rounded
to one decimal for display, unrounded for the impact tier), then ranks 1-5
assigned along the stable descending sort by stored percentage. -/
def calculatePercentageBreakdown (contributions : ContribMap) : PercentageBreakdown :=
  let totalWeightedScore := contributions.totalWeightedScore
  let entry := fun (c : Contribution) =>
    let percentage : ℚ :=
      if totalWeightedScore > 0 then c.weighted_score / totalWeightedScore * 100 else 0
    { percentage := jsRound (percentage * 10) / 10,
      raw_score := c.raw_score, weighted_score := c.weighted_score,
      weight := c.weight, impact_level := classifyImpactLevel percentage,
      rank := 0 : PBEntry }
  let pre : PercentageBreakdown :=
    { weather := entry contributions.weather, time := entry contributions.time,
      crowd := entry contributions.crowd, location := entry contributions.location,
      visibility := entry contributions.visibility }
  let sorted := stableSort (fun a b => decide (b.2.percentage ≤ a.2.percentage))
    ([(Factor.weather, pre.weather), (Factor.time, pre.time),
      (Factor.crowd, pre.crowd), (Factor.location, pre.location),
      (Factor.visibility, pre.visibility)] : List (Factor × PBEntry))
  let rankOf := fun (f : Factor) =>
    sorted.findIdx (fun e => decide (e.1 = f)) + 1
  { weather := { pre.weather with rank := rankOf .weather },
    time := { pre.time with rank := rankOf .time },
    crowd := { pre.crowd with rank := rankOf .crowd },
    location := { pre.location with rank := rankOf .location },
    visibility := { pre.visibility with rank := rankOf .visibility } }

/-- The fields of the analyzeRiskBreakdown result that carry the
percentage contributions and ranks. The further output sections
(sub-factor analysis, interactions, decision tree, confidence metrics,
explanations, visualization data) consume no additional randomness and are
not modelled. -/
structure BreakdownResult where
  success : Bool
  factor_scores : FactorVals
  weighted_contributions : ContribMap
  percentage_breakdown : PercentageBreakdown
  weights_used : FactorVals
deriving DecidableEq

/-- analyzeRiskBreakdown. The riskAssessment argument (of arbitrary shape)
is only echoed into overall_risk and the explanation text; it does not
influence the breakdown. weights || this.defaultWeights. -/
def analyzeRiskBreakdown {α : Type} (env : BEnv) (conditions : BConditions)
    (weights : Option FactorVals) (_riskAssessment : Option α) : BreakdownResult :=
  let activeWeights := weights.getD defaultWeights
  let factorScores := calculateFactorScores env conditions
  let weightedContributions := calculateWeightedContributions factorScores activeWeights
  let percentageBreakdown := calculatePercentageBreakdown weightedContributions
  { success := true, factor_scores := factorScores,
    weighted_contributions := weightedContributions,
    percentage_breakdown := percentageBreakdown,
    weights_used := activeWeights }

end RiskBreakdownAnalyzer

open AdaptiveRiskEngine

/-- C2: for every risk score s and every pair of adaptive thresholds with
low_to_medium at most medium_to_high, determineAdaptiveRiskLevel maps s
exactly by the two thresholds: s below low_to_medium gives LOW, between
the thresholds gives MEDIUM, and at least medium_to_high gives HIGH. -/
theorem C2_risk_level_thresholds (thr : Thresholds) (s : ℚ)
    (h : thr.low_to_medium ≤ thr.medium_to_high) :
    ((determineAdaptiveRiskLevel thr s).level = RiskLevel.LOW ↔ s < thr.low_to_medium) ∧
    ((determineAdaptiveRiskLevel thr s).level = RiskLevel.MEDIUM ↔
      thr.low_to_medium ≤ s ∧ s < thr.medium_to_high) ∧
    ((determineAdaptiveRiskLevel thr s).level = RiskLevel.HIGH ↔
      thr.medium_to_high ≤ s) := by
  unfold determineAdaptiveRiskLevel
  split_ifs with h1 h2
  · refine ⟨iff_of_false (by simp) (not_lt.mpr (le_trans h h1)), ?_, iff_of_true rfl h1⟩
    exact iff_of_false (by simp) (fun hc => absurd h1 (not_le.mpr hc.2))
  · refine ⟨iff_of_false (by simp) (not_lt.mpr h2), ?_, ?_⟩
    · exact iff_of_true rfl ⟨h2, lt_of_not_le h1⟩
    · exact iff_of_false (by simp) h1
  · refine ⟨iff_of_true rfl (lt_of_not_le h2), ?_, ?_⟩
    · exact iff_of_false (by simp) (fun hc => absurd hc.1 h2)
    · exact iff_of_false (by simp) (fun hc => h2 (le_trans h hc))

/-- Witness for C2 at the constructor thresholds and score 3. -/
theorem C2_risk_level_thresholds_witness :
    initialThresholds.low_to_medium ≤ initialThresholds.medium_to_high ∧
    (((determineAdaptiveRiskLevel initialThresholds 3).level = RiskLevel.LOW ↔
        (3 : ℚ) < initialThresholds.low_to_medium) ∧
     ((determineAdaptiveRiskLevel initialThresholds 3).level = RiskLevel.MEDIUM ↔
        initialThresholds.low_to_medium ≤ 3 ∧ (3 : ℚ) < initialThresholds.medium_to_high) ∧
     ((determineAdaptiveRiskLevel initialThresholds 3).level = RiskLevel.HIGH ↔
        initialThresholds.medium_to_high ≤ 3)) :=
  ⟨by with_unfolding_all decide,
   C2_risk_level_thresholds initialThresholds 3 (by with_unfolding_all decide)⟩

/-- C10: for every state and every prediction id with no stored prediction,
recordOutcome returns a failure result carrying an error message and
leaves the whole learner state unchanged. -/
theorem C10_unknown_prediction_atomic (s : EngineState) (id : String)
    (inp : OutcomeInput) (now : ℕ) (h : findPrediction s id = none) :
    (recordOutcome s id inp now).1.success = false ∧
    ((recordOutcome s id inp now).1.error).isSome = true ∧
    (recordOutcome s id inp now).2 = s := by
  unfold recordOutcome
  rw [h]
  exact ⟨rfl, rfl, rfl⟩

/-- A sample outcome payload used by the witness states. -/
def sampleOutcomeInput : OutcomeInput :=
  { actual_risk_level := .HIGH, incident_occurred := some true,
    incident_severity := none, user_feedback := none,
    environmental_accuracy := none }

/-- Witness for C10 on the fresh engine state and an unknown id. -/
theorem C10_unknown_prediction_atomic_witness :
    findPrediction initEngineState "missing" = none ∧
    ((recordOutcome initEngineState "missing" sampleOutcomeInput 0).1.success = false ∧
     ((recordOutcome initEngineState "missing" sampleOutcomeInput 0).1.error).isSome = true ∧
     (recordOutcome initEngineState "missing" sampleOutcomeInput 0).2 = initEngineState) :=
  ⟨rfl, C10_unknown_prediction_atomic initEngineState "missing" sampleOutcomeInput 0 rfl⟩

open RiskStateMachine

/-- C4: for every machine state and every target name that resolves to a
valid state but is not in the current state's allowed-transitions list,
transition returns false and leaves the machine (current state, previous
state, history, counter, behavior profile) unchanged. -/
theorem C4_disallowed_transition_rejected (m : Machine) (t : String) (st : SMState)
    (now : ℕ) (hvalid : stateOfName t = some st)
    (hnot : t ∉ allowedTransitions m.currentState) :
    transition m t now = (false, m) := by
  unfold transition
  rw [hvalid]
  have hc : isTransitionAllowed m t = false := by
    unfold isTransitionAllowed
    simpa using hnot
  rw [hc]
  simp

/-- Witness for C4: RECOVERY is a valid state not reachable from the
initial INITIALIZING state. -/
theorem C4_disallowed_transition_rejected_witness :
    stateOfName "RECOVERY" = some SMState.RECOVERY ∧
    "RECOVERY" ∉ allowedTransitions initMachine.currentState ∧
    transition initMachine "RECOVERY" 0 = (false, initMachine) :=
  ⟨by decide, by decide,
   C4_disallowed_transition_rejected initMachine "RECOVERY" SMState.RECOVERY 0
     (by decide) (by decide)⟩

/-- The end-to-end scenario-2 conditions of the spec. -/
def c5Conditions : Conditions :=
  { weather := some "thunderstorm", time := some "late_night",
    crowd_density := some "overcrowded", location := none,
    visibility := .num 0.2 }

/-- The assessment of the scenario-2 conditions on a fresh engine (default
weights and thresholds). -/
def c5Result : AssessResult :=
  (assessRiskAdaptive initEngineState c5Conditions (some "p1") "p1").1

/-- C5 counterexample: with the default weights and thresholds the
scenario-2 conditions score 3.3 and are classified MEDIUM, so the claimed
risk level HIGH (or CRITICAL, which the engine cannot produce) and the
claimed score of at least 5.0 both fail. -/
theorem C5_scenario2_counterexample :
    c5Result.risk_assessment.risk_level = RiskLevel.MEDIUM ∧
    c5Result.risk_assessment.risk_score < 5 := by with_unfolding_all decide

/-- C5 amended: the scenario-2 conditions yield risk level MEDIUM with
risk score exactly 3.3, and the recommendations do contain both the
weather-shelter suggestion and the crowd/exit-route suggestion. -/
theorem C5_scenario2_amended :
    c5Result.risk_assessment.risk_level = RiskLevel.MEDIUM ∧
    c5Result.risk_assessment.risk_score = 33/10 ∧
    "Severe weather - seek immediate shelter" ∈ c5Result.recommendations ∧
    "Avoid crowded areas or identify exit routes" ∈ c5Result.recommendations := by
  with_unfolding_all decide

/-- The ordinal index LOW 0, MEDIUM 1, HIGH 2 named by the spec for the
accuracy formula. -/
def specLevelOrdinal : RiskLevel → ℚ
  | .LOW => 0
  | .MEDIUM => 1
  | .HIGH => 2

/-- The per-pair accuracy score exactly as the spec words it (claim C7):
0.6 for a risk-level match, decaying by 0.3 per level of ordinal distance
floored at zero; plus 0.3 when the incident flag (predicted HIGH) agrees
with incident_occurred; plus 0.1 times the supplied environmental
multiplier; the total clamped to the unit interval. -/
def specAccuracyFormula (predicted actual : RiskLevel) (incidentOccurred : Bool)
    (envMultiplier : ℚ) : ℚ :=
  let dist := |specLevelOrdinal predicted - specLevelOrdinal actual|
  let levelPart := max 0 (0.6 - 0.3 * dist)
  let incidentPart : ℚ := if decide (predicted = .HIGH) = incidentOccurred then 0.3 else 0
  min 1 (max 0 (levelPart + incidentPart + 0.1 * envMultiplier))

/-- A prediction record with risk level LOW, as stored by the engine. -/
def c7Prediction : Prediction :=
  { id := "p", conditions := c5Conditions,
    base_scores := { weather := 0, time := 0, crowd := 0, location := 0, visibility := 0 },
    weights_used := initialWeights, weighted_score := 1,
    risk_level := .LOW, thresholds_used := initialThresholds, confidence := 0.7 }

/-- The matching outcome record: actual level MEDIUM, no incident,
environmental multiplier 1. -/
def c7Outcome : OutcomeRecord :=
  { prediction_id := "p", timestamp := 0, actual_risk_level := .MEDIUM,
    incident_occurred := false, incident_severity := 0, user_feedback := none,
    environmental_accuracy := 1 }

/-- C7: the accuracy code diverges from the specified formula. At the
failing input (predicted LOW, actual MEDIUM, no incident, multiplier 1)
the code returns 1.0 while the formula gives 0.7: levelMap[LOW] is 0,
which is falsy, so the "|| 1" fallback maps LOW to index 1 and the
LOW-MEDIUM ordinal distance computes as 0, awarding full level credit. -/
theorem C7_accuracy_divergence :
    calculatePredictionAccuracy c7Prediction c7Outcome = 1 ∧
    specAccuracyFormula RiskLevel.LOW RiskLevel.MEDIUM false 1 = 7/10 ∧
    calculatePredictionAccuracy c7Prediction c7Outcome ≠
      specAccuracyFormula c7Prediction.risk_level c7Outcome.actual_risk_level
        c7Outcome.incident_occurred c7Outcome.environmental_accuracy := by
  with_unfolding_all decide

open RiskSimulation

/-- helper: the cadence condition of shouldTriggerAdaptation is exactly a
positive multiple of the adaptation threshold 5. -/
theorem shouldTrigger_iff (s : EngineState) :
    shouldTriggerAdaptation s = true ↔
      ∃ k, 0 < k ∧ s.outcomeHistory.length = 5 * k := by
  unfold shouldTriggerAdaptation adaptationThreshold
  simp only [Bool.and_eq_true, decide_eq_true_eq]
  constructor
  · rintro ⟨h1, h2⟩
    exact ⟨s.outcomeHistory.length / 5, by omega, by omega⟩
  · rintro ⟨k, hk, he⟩
    omega

/-- C3: every successful recordOutcome call triggers an adaptation step
exactly when the outcome-history length after the call is a positive
multiple of the adaptation threshold 5, and on no other call. -/
theorem C3_adaptation_cadence (s : EngineState) (id : String) (inp : OutcomeInput)
    (now : ℕ) (h : (findPrediction s id).isSome = true) :
    (recordOutcome s id inp now).1.success = true ∧
    ((recordOutcome s id inp now).1.adaptation_triggered = true ↔
      ∃ k, 0 < k ∧ (recordOutcome s id inp now).2.outcomeHistory.length = 5 * k) := by
  obtain ⟨p, hp⟩ := Option.isSome_iff_exists.mp h
  simp only [recordOutcome, hp]
  split
  next htr =>
    refine ⟨rfl, ?_⟩
    constructor
    · intro _
      exact (shouldTrigger_iff _).mp htr
    · intro _
      rfl
  next htr =>
    refine ⟨rfl, ?_⟩
    constructor
    · intro hfalse
      exact absurd hfalse (by simp)
    · intro hex
      exact absurd ((shouldTrigger_iff _).mpr hex) (by simpa using htr)

/-- A state holding one stored prediction, for the C3 witness. -/
def c3State : EngineState :=
  (assessRiskAdaptive initEngineState c5Conditions (some "w1") "w1").2

/-- Witness for C3 at a concrete state with a stored prediction. -/
theorem C3_adaptation_cadence_witness :
    (findPrediction c3State "w1").isSome = true ∧
    ((recordOutcome c3State "w1" sampleOutcomeInput 0).1.success = true ∧
     ((recordOutcome c3State "w1" sampleOutcomeInput 0).1.adaptation_triggered = true ↔
       ∃ k, 0 < k ∧
         (recordOutcome c3State "w1" sampleOutcomeInput 0).2.outcomeHistory.length = 5 * k)) :=
  ⟨by with_unfolding_all decide,
   C3_adaptation_cadence c3State "w1" sampleOutcomeInput 0 (by with_unfolding_all decide)⟩

/-- A concrete simulation environment. -/
def c9Env : SimEnv :=
  { rand := fun _ => 0, startMinutes := 600, sinOfHour := fun _ => 0,
    globalAssess := false, nowISO := "2026-01-01T00:00:00.000Z" }

def c9Conditions : SimConditions :=
  { weather := "clear", crowd_density := "light", location := none }

/-- C9 (amended): a call with hoursAhead outside the interval (0, 48] or
intervalMinutes outside (0, 240] yields no exception but the structured
failure object whose keys are success, error and timestamp (the source has
no fallback key there). -/
theorem C9_validation_failure_shape (env : SimEnv) (cond : SimConditions)
    (trends : SimTrends) (hoursAhead intervalMinutes : ℚ)
    (h : hoursAhead ≤ 0 ∨ 48 < hoursAhead ∨ intervalMinutes ≤ 0 ∨ 240 < intervalMinutes) :
    (simulateRiskProgression env cond trends hoursAhead intervalMinutes).success = false ∧
    resultKeys (simulateRiskProgression env cond trends hoursAhead intervalMinutes) =
      ["success", "error", "timestamp"] := by
  have hv : ∃ msg, validateSimulationInputs hoursAhead intervalMinutes = some msg := by
    unfold validateSimulationInputs
    split_ifs with h1 h2
    · exact ⟨_, rfl⟩
    · exact ⟨_, rfl⟩
    · push_neg at h1 h2
      rcases h with h | h | h | h
      · linarith [h1.1]
      · linarith [h1.2]
      · linarith [h2.1]
      · linarith [h2.2]
  obtain ⟨msg, hm⟩ := hv
  unfold simulateRiskProgression
  rw [hm]
  exact ⟨rfl, rfl⟩

/-- Witness for C9 (amended) at hoursAhead 0, intervalMinutes 30. -/
theorem C9_validation_failure_shape_witness :
    ((0 : ℚ) ≤ 0 ∨ 48 < (0 : ℚ) ∨ (30 : ℚ) ≤ 0 ∨ 240 < (30 : ℚ)) ∧
    ((simulateRiskProgression c9Env c9Conditions (generateDefaultTrends c9Conditions) 0 30).success = false ∧
     resultKeys (simulateRiskProgression c9Env c9Conditions (generateDefaultTrends c9Conditions) 0 30) =
       ["success", "error", "timestamp"]) :=
  ⟨Or.inl le_rfl,
   C9_validation_failure_shape c9Env c9Conditions (generateDefaultTrends c9Conditions) 0 30
     (Or.inl le_rfl)⟩

/-- C9 counterexample: the failure object of a rejected call has a
timestamp key and no fallback key, refuting the claimed
success/error/fallback shape. -/
theorem C9_no_fallback_key :
    (simulateRiskProgression c9Env c9Conditions (generateDefaultTrends c9Conditions) 0 30).success = false ∧
    "fallback" ∉ resultKeys
      (simulateRiskProgression c9Env c9Conditions (generateDefaultTrends c9Conditions) 0 30) := by
  with_unfolding_all decide

/-- helper: bounds of the per-factor weight clamp. -/
theorem clampWeight_bounds (x : ℚ) : 1/20 ≤ clampWeight x ∧ clampWeight x ≤ 1/2 := by
  unfold clampWeight
  constructor
  · have h : (1/20 : ℚ) = 0.05 := by norm_num
    rw [h]
    exact le_max_left _ _
  · exact max_le (by norm_num) (le_trans (min_le_left _ _) (by norm_num))

/-- helper: bounds of one weight after division by the clamped total. -/
theorem normalizedWeight_bounds (x T : ℚ) (hx1 : 1/20 ≤ x) (hx2 : x ≤ 1/2)
    (hT1 : x + 1/5 ≤ T) (hT2 : T ≤ 5/2) :
    1/50 ≤ x / T ∧ x / T ≤ 5/7 := by
  have hTpos : 0 < T := by linarith
  constructor
  · rw [le_div_iff₀ hTpos]
    linarith
  · rw [div_le_iff₀ hTpos]
    linarith

/-- C1 (amended): after every adaptation step the factor weights sum
exactly to 1; each weight is inside the band 0.05 to 0.5 immediately
before the final re-normalization, and after re-normalization each weight
lies in the band 1/50 to 5/7 — it can leave the claimed 0.05 to 0.5 band,
as the counterexample shows. -/
theorem C1_weights_normalized (s : EngineState) (now : ℕ) :
    ((performAdaptation s now).1.weights).total = 1 ∧
    ∀ f : Factor, 1/50 ≤ ((performAdaptation s now).1.weights).get f ∧
      ((performAdaptation s now).1.weights).get f ≤ 5/7 := by
  have key : ∀ w a : FactorVals, ((applyWeightAdjustments w a).total = 1 ∧
      ∀ f : Factor, 1/50 ≤ (applyWeightAdjustments w a).get f ∧
        (applyWeightAdjustments w a).get f ≤ 5/7) := by
    intro w a
    obtain ⟨ha1, ha2⟩ := clampWeight_bounds (w.weather + a.weather)
    obtain ⟨hb1, hb2⟩ := clampWeight_bounds (w.time + a.time)
    obtain ⟨hc1, hc2⟩ := clampWeight_bounds (w.crowd + a.crowd)
    obtain ⟨hd1, hd2⟩ := clampWeight_bounds (w.location + a.location)
    obtain ⟨he1, he2⟩ := clampWeight_bounds (w.visibility + a.visibility)
    simp only [applyWeightAdjustments, FactorVals.total, FactorVals.get]
    set ca := clampWeight (w.weather + a.weather) with hca
    set cb := clampWeight (w.time + a.time) with hcb
    set cc := clampWeight (w.crowd + a.crowd) with hcc
    set cd := clampWeight (w.location + a.location) with hcd
    set ce := clampWeight (w.visibility + a.visibility) with hce
    have hS : (0 : ℚ) < ca + cb + cc + cd + ce := by linarith
    have hS0 : (ca + cb + cc + cd + ce : ℚ) ≠ 0 := ne_of_gt hS
    constructor
    · field_simp
    · intro f
      cases f <;> simp only [FactorVals.get]
      · exact normalizedWeight_bounds ca _ ha1 ha2 (by linarith) (by linarith)
      · exact normalizedWeight_bounds cb _ hb1 hb2 (by linarith) (by linarith)
      · exact normalizedWeight_bounds cc _ hc1 hc2 (by linarith) (by linarith)
      · exact normalizedWeight_bounds cd _ hd1 hd2 (by linarith) (by linarith)
      · exact normalizedWeight_bounds ce _ he1 he2 (by linarith) (by linarith)
  simp only [performAdaptation]
  exact key _ _

/-- The conditions used by the C1 drift run: every factor scores at least 2
except visibility, which scores 0. -/
def c1Conditions : Conditions :=
  { weather := some "stormy", time := some "night",
    crowd_density := some "heavy", location := some "cliff",
    visibility := .num 1 }

/-- The outcome recorded for every prediction of the drift run. -/
def c1Outcome : OutcomeInput :=
  { actual_risk_level := .HIGH, incident_occurred := some true,
    incident_severity := none, user_feedback := none,
    environmental_accuracy := none }

def c1Ids : List String :=
  ["q0", "q1", "q2", "q3", "q4", "q5", "q6", "q7", "q8", "q9"]

/-- One assess-then-record cycle using the n-th prediction id. -/
def c1Step (s : EngineState) (n : ℕ) : EngineState :=
  let pid := c1Ids.getD n "q"
  (recordOutcome ((assessRiskAdaptive s c1Conditions (some pid) pid).2) pid c1Outcome 0).2

/-- Ten assess/record cycles from a fresh engine: two adaptation steps. -/
def c1Run : EngineState := (List.range 10).foldl c1Step initEngineState

set_option maxRecDepth 400000 in
/-- C1 counterexample: after a concrete sequence of ten recorded outcomes,
whose tenth triggers the second adaptation step, the visibility weight
(which then equals 205/4291) is strictly below the claimed lower bound
0.05. -/
theorem C1_weight_leaves_band :
    c1Run.adaptationHistory.length = 2 ∧
    c1Run.weights.visibility < 1/20 := by
  with_unfolding_all decide

open RiskBreakdownAnalyzer

def c6Conditions : BConditions :=
  { weather := some "thunderstorm", time := some "late_night",
    crowd_density := some "overcrowded", location := some "construction",
    visibility := .num 0.2 }

def c6EnvA : BEnv := { rand := fun _ => 0, hour := 12, day := 1, month := 5 }

def c6EnvB : BEnv := { rand := fun _ => 1/2, hour := 12, day := 1, month := 5 }

/-- C6 counterexample: two analyzeRiskBreakdown calls on identical
(conditions, weights, assessment) arguments return different weather
percentages (38.8 versus 38.6) because the factor scores draw fresh
Math.random values on every call. -/
theorem C6_two_calls_differ :
    (analyzeRiskBreakdown c6EnvA c6Conditions none (none : Option Unit)).percentage_breakdown.weather.percentage = 194/5 ∧
    (analyzeRiskBreakdown c6EnvB c6Conditions none (none : Option Unit)).percentage_breakdown.weather.percentage = 193/5 ∧
    (analyzeRiskBreakdown c6EnvA c6Conditions none (none : Option Unit)).percentage_breakdown ≠
      (analyzeRiskBreakdown c6EnvB c6Conditions none (none : Option Unit)).percentage_breakdown := by
  with_unfolding_all decide

/-- C6 (amended): the Breakdown Analyzer is deterministic in (conditions,
weights, assessment) together with its sampled environment: any two calls
that agree on the ten Math.random draws and on the clock return identical
results, so in particular identical percentages and ranks. -/
theorem C6_env_determinism {α : Type} (e1 e2 : BEnv) (cond : BConditions)
    (w : Option FactorVals) (ra : Option α)
    (hr : ∀ i, i < 10 → e1.rand i = e2.rand i)
    (hh : e1.hour = e2.hour) (hd : e1.day = e2.day) (hm : e1.month = e2.month) :
    analyzeRiskBreakdown e1 cond w ra = analyzeRiskBreakdown e2 cond w ra := by
  have h0 := hr 0 (by norm_num)
  have h1 := hr 1 (by norm_num)
  have h2 := hr 2 (by norm_num)
  have h3 := hr 3 (by norm_num)
  have h4 := hr 4 (by norm_num)
  have h5 := hr 5 (by norm_num)
  have h6 := hr 6 (by norm_num)
  have h7 := hr 7 (by norm_num)
  have h8 := hr 8 (by norm_num)
  have h9 := hr 9 (by norm_num)
  unfold analyzeRiskBreakdown calculateFactorScores getWeatherStability getForecastTrend
    getSeasonalAppropriateness getHourOfDayRisk getDayOfWeekRisk getSeasonalRisk
    getCrowdBehavior getCrowdFlowPattern getCrowdDemographics getLocationAccessibility
    getInfrastructureQuality getHistoricalIncidentRisk getLightingConditions
    getVisibilityObstacles
  rw [h0, h1, h2, h3, h4, h5, h6, h7, h8, h9, hh, hd, hm]

def c6EnvC : BEnv :=
  { rand := fun i => if i < 10 then 0 else 7, hour := 12, day := 1, month := 5 }

/-- Witness for C6 (amended): two environments that differ beyond draw 9
still produce identical breakdowns. -/
theorem C6_env_determinism_witness :
    (∀ i, i < 10 → c6EnvA.rand i = c6EnvC.rand i) ∧
    analyzeRiskBreakdown c6EnvA c6Conditions none (none : Option Unit) =
      analyzeRiskBreakdown c6EnvC c6Conditions none (none : Option Unit) :=
  ⟨fun i hi => by simp [c6EnvA, c6EnvC, hi],
   C6_env_determinism c6EnvA c6EnvC c6Conditions none none
     (fun i hi => by simp [c6EnvA, c6EnvC, hi]) rfl rfl rfl⟩

/-- helper: a two-sided clamped index into a five-element list is in
bounds. -/
theorem listGetInt_clamped (l : List String) (x : ℤ) (h5 : l.length = 5) :
    ∃ s, listGetInt l (max 0 (min 4 x)) = some s := by
  have h0 : (0 : ℤ) ≤ max 0 (min 4 x) := le_max_left _ _
  have h4 : max 0 (min 4 x) ≤ 4 := max_le (by norm_num) (min_le_left _ _)
  have hlt : (max 0 (min 4 x)).toNat < l.length := by
    rw [h5]
    omega
  exact ⟨_, by unfold listGetInt; rw [dif_pos ⟨h0, hlt⟩]⟩

/-- helper: under the default (stable) weather trend the evolved weather is
always a defined member of the weather list. -/
theorem c8_weather_some (env : SimEnv) (i : ℕ) (w : String) (t : ℚ) :
    ∃ s, simulateWeatherChange env i w
      { direction := "stable", rate := 0.1, volatility := 0.2 } t = some s := by
  unfold simulateWeatherChange
  simp only [show ({ direction := "stable", rate := 0.1, volatility := 0.2 } :
      WeatherTrend).direction = "stable" from rfl]
  rw [if_neg (by decide : ¬("stable" = "deteriorating")),
      if_neg (by decide : ¬("stable" = "improving"))]
  exact listGetInt_clamped _ _ rfl

/-- helper: the evolved crowd density is always defined (the rounded index
is clamped on both sides whatever the trend direction). -/
theorem c8_crowd_some (c : String) (ct : CrowdTrend) (h : ℕ) (t : ℚ) :
    ∃ s, simulateCrowdChange c ct h t = some s := by
  unfold simulateCrowdChange
  exact listGetInt_clamped _ _ rfl

/-- helper: with defined weather and crowd density, assessRiskAtTime never
throws, whichever assessment path is active. -/
theorem c8_assess_ok (env : SimEnv) (ec : EvolvedConditions) (w c : String)
    (hw : ec.weather = some w) (hc : ec.crowd_density = some c) :
    ∃ r, assessRiskAtTime env ec = .ok r := by
  unfold assessRiskAtTime
  cases hga : env.globalAssess
  · rw [if_neg (by simp [hga])]
    exact ⟨_, rfl⟩
  · rw [if_pos (by simp [hga]), hw, hc]
    exact ⟨_, rfl⟩

/-- helper: every simulation step under the default trends succeeds, at
elapsed hours i/2 with confidence 0.95 minus 0.025 per step. -/
theorem c8_step_ok (env : SimEnv) (cond : SimConditions) (a : ℕ) (ha : a ≤ 12) :
    ∃ b, simulationStep env cond (generateDefaultTrends cond) 30 a = .ok b ∧
      b.hours_from_start = (a : ℚ) * 30 / 60 ∧
      b.confidence = 19/20 - (a : ℚ) / 40 := by
  obtain ⟨w, hw⟩ := c8_weather_some env a cond.weather ((a : ℚ) * 30 / 60)
  obtain ⟨c, hc⟩ := c8_crowd_some cond.crowd_density (generateDefaultTrends cond).crowd_trend
    (hourAt env ((a : ℚ) * 30)) ((a : ℚ) * 30 / 60)
  have hcw : (calculateConditionsAtTime env a cond (generateDefaultTrends cond)
      ((a : ℚ) * 30 / 60) (hourAt env ((a : ℚ) * 30))).weather = some w := by
    unfold calculateConditionsAtTime
    exact hw
  have hcc : (calculateConditionsAtTime env a cond (generateDefaultTrends cond)
      ((a : ℚ) * 30 / 60) (hourAt env ((a : ℚ) * 30))).crowd_density = some c := by
    unfold calculateConditionsAtTime
    exact hc
  obtain ⟨r, hr⟩ := c8_assess_ok env _ w c hcw hcc
  have hconf : calculateConfidence ((a : ℚ) * 30 / 60) = 19/20 - (a : ℚ) / 40 := by
    have ha12 : (a : ℚ) ≤ 12 := by exact_mod_cast ha
    unfold calculateConfidence
    rw [max_eq_right (by linarith)]
    ring
  refine ⟨{ hours_from_start := (a : ℚ) * 30 / 60,
            conditions := calculateConditionsAtTime env a cond (generateDefaultTrends cond)
              ((a : ℚ) * 30 / 60) (hourAt env ((a : ℚ) * 30)),
            risk_assessment := r,
            confidence := calculateConfidence ((a : ℚ) * 30 / 60) }, ?_, rfl, hconf⟩
  unfold simulationStep
  simp only [hr]

/-- helper: chaining the step results through mapM. -/
theorem c8_mapM (env : SimEnv) (cond : SimConditions) (l : List ℕ)
    (hl : ∀ a ∈ l, a ≤ 12) :
    ∃ bl, l.mapM (simulationStep env cond (generateDefaultTrends cond) 30) = .ok bl ∧
      bl.map (fun p => p.hours_from_start) = l.map (fun a : ℕ => (a : ℚ) * 30 / 60) ∧
      bl.map (fun p => p.confidence) = l.map (fun a : ℕ => 19/20 - (a : ℚ) / 40) := by
  induction l with
  | nil => exact ⟨[], rfl, rfl, rfl⟩
  | cons x xs ih =>
    obtain ⟨b, hb, hbh, hbc⟩ := c8_step_ok env cond x (hl x (by simp))
    obtain ⟨bl, hbl, hh, hcf⟩ := ih (fun a ha => hl a (by simp [ha]))
    refine ⟨b :: bl, ?_, ?_, ?_⟩
    · rw [List.mapM_cons, hb, hbl]
      rfl
    · simp [hh, hbh]
    · simp [hcf, hbc]

/-- C8: a simulateRiskProgression call with hoursAhead 6 and
intervalMinutes 30 (default trends) succeeds with exactly 13 prediction
points at elapsed minutes 0, 30, ..., 360, whose confidence values are
strictly decreasing, for every environment and initial conditions. -/
theorem C8_simulation_progression (env : SimEnv) (cond : SimConditions) :
    ∃ payload,
      simulateRiskProgression env cond (generateDefaultTrends cond) 6 30 =
        SimResult.ok payload ∧
      payload.predictions.length = 13 ∧
      payload.predictions.map (fun p => p.hours_from_start) =
        [0, 1/2, 1, 3/2, 2, 5/2, 3, 7/2, 4, 9/2, 5, 11/2, 6] ∧
      List.Pairwise (fun a b => b < a)
        (payload.predictions.map (fun p => p.confidence)) := by
  obtain ⟨bl, hbl, hh, hcf⟩ := c8_mapM env cond (List.range 13)
    (by
      intro a ha
      have := List.mem_range.mp ha
      omega)
  have hvalid : validateSimulationInputs 6 30 = none := by
    unfold validateSimulationInputs
    rw [if_neg (by norm_num), if_neg (by norm_num)]
  have hcount : ((⌈(6 : ℚ) * 60 / 30⌉).toNat + 1) = 13 := by
    with_unfolding_all decide
  have hlen : bl.length = 13 := by
    have := congrArg List.length hh
    simpa using this
  refine ⟨{ start_time := env.nowISO, hours_ahead := 6, interval_minutes := 30,
            total_predictions := bl.length, initial_conditions := cond,
            trends_used := generateDefaultTrends cond, predictions := bl },
          ?_, ?_, ?_, ?_⟩
  · unfold simulateRiskProgression
    rw [hvalid]
    simp only [hcount, hbl]
  · exact hlen
  · rw [hh]
    with_unfolding_all decide
  · rw [hcf]
    with_unfolding_all decide
